import Mathlib

/-!
Shallow embedding of `MediaController` (src/unnamed/part_000, a TypeScript
class driving an HTMLMediaElement from keyboard events).

Numbers (`currentTime` seconds, `volume` fraction, the configured deltas)
are modelled as `ℚ`.  A DOM `Event` is modelled by the fields the code
reads, plus an `isKeyboardEvent` tag for the `instanceof KeyboardEvent`
guard.  The three suppression calls (`preventDefault`,
`stopImmediatePropagation`, `stopPropagation`) are modelled as updates of
an `EventFlags` record.  `document.activeElement === target` is the
`focused` field of the media state; `target.focus()` sets it.

Listener bookkeeping (`addEventListener` / `removeEventListener` on the
scope and the target, and the `__mediaController` back-reference) is
modelled by a `World` record; a listener is identified by the controller
instance id and which of the two arrow-function handlers it is, matching
the DOM's identification of listeners by function reference (adding a
present reference is a no-op, removal removes by reference).
-/

namespace MediaCtrl

/-- `IKeyMask<T>` (part_000 lines 9-14): per-modifier-combination table. -/
structure KeyMask (T : Type) where
  onNone : T
  onShift : T
  onCtrl : T
  onShiftCtrl : T
deriving Repr, DecidableEq

/-- The `Pick<KeyboardEvent, "shiftKey" | "ctrlKey">` mask of `IFocusKey`. -/
structure FocusMask where
  shiftKey : Bool
  ctrlKey : Bool
deriving Repr, DecidableEq

/-- `IFocusKey` (part_000 lines 16-19). -/
structure FocusKey where
  key : String
  mask : FocusMask
deriving Repr, DecidableEq

/-- `IMediaControllerOptions` (part_000 lines 21-25). -/
structure MediaControllerOptions where
  focusKey : FocusKey
  progress : KeyMask ℚ
  volume : KeyMask ℚ
deriving Repr, DecidableEq

/-- `getDefaults` (part_000 lines 27-51). -/
def getDefaults : MediaControllerOptions where
  focusKey := { key := "e", mask := { shiftKey := false, ctrlKey := true } }
  progress := { onNone := 10, onShift := 1, onCtrl := 30, onShiftCtrl := 60 }
  volume := { onNone := 0.1, onShift := 0.01, onCtrl := 0.25, onShiftCtrl := 0.5 }

/-- A DOM event, restricted to the fields the handlers read.
`isKeyboardEvent` models the `event instanceof KeyboardEvent` guard. -/
structure Event where
  isKeyboardEvent : Bool
  key : String
  ctrlKey : Bool
  metaKey : Bool
  shiftKey : Bool
deriving Repr, DecidableEq

/-- Outcome flags of an event: set by `preventDefault`,
`stopPropagation`, `stopImmediatePropagation`. -/
structure EventFlags where
  defaultPrevented : Bool
  propagationStopped : Bool
  immediatePropagationStopped : Bool
deriving Repr, DecidableEq

/-- A freshly dispatched event: no flag set. -/
def EventFlags.fresh : EventFlags :=
  { defaultPrevented := false, propagationStopped := false
    immediatePropagationStopped := false }

/-- `event.preventDefault()`. -/
def preventDefault (f : EventFlags) : EventFlags :=
  { f with defaultPrevented := true }

/-- `event.stopPropagation()`. -/
def stopPropagation (f : EventFlags) : EventFlags :=
  { f with propagationStopped := true }

/-- `event.stopImmediatePropagation()`. -/
def stopImmediatePropagation (f : EventFlags) : EventFlags :=
  { f with immediatePropagationStopped := true }

/-- Observable state of the target `HTMLMediaElement`; `focused` is
whether `window.document.activeElement` is the target. -/
structure MediaState where
  currentTime : ℚ
  volume : ℚ
  paused : Bool
  focused : Bool
deriving Repr, DecidableEq

/-- `target.play()`: clears `paused`. -/
def play (m : MediaState) : MediaState := { m with paused := false }

/-- `target.pause()`: sets `paused`. -/
def pause (m : MediaState) : MediaState := { m with paused := true }

/-- `target.focus()`: the target becomes `document.activeElement`. -/
def focus (m : MediaState) : MediaState := { m with focused := true }

/-- `MediaController.getTimeDelta` (part_000 lines 87-100), with the local
bindings `onCtrl = e.ctrlKey || e.metaKey` and `onShift = e.shiftKey`
inlined. -/
def getTimeDelta (opts : MediaControllerOptions) (e : Event) : ℚ :=
  if e.shiftKey && (e.ctrlKey || e.metaKey) then opts.progress.onShiftCtrl
  else if e.shiftKey then opts.progress.onShift
  else if e.ctrlKey || e.metaKey then opts.progress.onCtrl
  else opts.progress.onNone

/-- `MediaController.getVolumeDelta` (part_000 lines 102-115), same
shape as `getTimeDelta` but over the `volume` table. -/
def getVolumeDelta (opts : MediaControllerOptions) (e : Event) : ℚ :=
  if e.shiftKey && (e.ctrlKey || e.metaKey) then opts.volume.onShiftCtrl
  else if e.shiftKey then opts.volume.onShift
  else if e.ctrlKey || e.metaKey then opts.volume.onCtrl
  else opts.volume.onNone

/-- `MediaController.onScopeKeydown` (part_000 lines 117-135): after the
`instanceof` guard, on an exact match of key, combined ctrl-or-meta flag
and shift flag against `options.focusKey`, focus the target and call
`preventDefault`, `stopImmediatePropagation`, `stopPropagation`;
otherwise do nothing. -/
def onScopeKeydown (opts : MediaControllerOptions) (e : Event)
    (m : MediaState) (f : EventFlags) : MediaState × EventFlags :=
  if !e.isKeyboardEvent then (m, f)
  else if e.key == opts.focusKey.key
      && (e.ctrlKey || e.metaKey) == opts.focusKey.mask.ctrlKey
      && e.shiftKey == opts.focusKey.mask.shiftKey then
    (focus m, stopPropagation (stopImmediatePropagation (preventDefault f)))
  else (m, f)

/-- `MediaController.onMediaKeydown` (part_000 lines 137-177): after the
`instanceof` guard and the `activeElement` check, a switch over
`event.key`; the source's `acted` flag followed by one suppression block
is rendered by suppressing in each acted branch. -/
def onMediaKeydown (opts : MediaControllerOptions) (e : Event)
    (m : MediaState) (f : EventFlags) : MediaState × EventFlags :=
  if !e.isKeyboardEvent then (m, f)
  else if !m.focused then (m, f)
  else if e.key == "ArrowLeft" then
    ({ m with currentTime := m.currentTime - getTimeDelta opts e },
      stopPropagation (stopImmediatePropagation (preventDefault f)))
  else if e.key == "ArrowRight" then
    ({ m with currentTime := m.currentTime + getTimeDelta opts e },
      stopPropagation (stopImmediatePropagation (preventDefault f)))
  else if e.key == "ArrowUp" then
    ({ m with volume := m.volume + getVolumeDelta opts e },
      stopPropagation (stopImmediatePropagation (preventDefault f)))
  else if e.key == "ArrowDown" then
    ({ m with volume := m.volume - getVolumeDelta opts e },
      stopPropagation (stopImmediatePropagation (preventDefault f)))
  else if e.key == " " then
    ((if m.paused then play m else pause m),
      stopPropagation (stopImmediatePropagation (preventDefault f)))
  else (m, f)

/-- Which of the two per-instance arrow-function handlers a listener is. -/
inductive ListenerKind where
  | scopeKd
  | mediaKd
deriving Repr, DecidableEq

/-- A listener reference: controller instance id plus handler identity.
The DOM identifies listeners by function reference; the two arrow
functions are per-instance, so (id, kind) identifies one. -/
structure ListenerRef where
  cid : Nat
  kind : ListenerKind
deriving Repr, DecidableEq

/-- DOM `addEventListener`: adding an already-registered reference is a
no-op, otherwise append in registration order. -/
def addListener (r : ListenerRef) (l : List ListenerRef) : List ListenerRef :=
  if r ∈ l then l else l ++ [r]

/-- DOM `removeEventListener`: remove the reference if present. -/
def removeListener (r : ListenerRef) (l : List ListenerRef) : List ListenerRef :=
  l.filter (fun x => x ≠ r)

/-- World state: keydown listener lists of the scope and of the target,
the scope's `__mediaController` back-reference (by instance id), media
state, and a count of `console.warn` calls. -/
structure World where
  scopeListeners : List ListenerRef
  targetListeners : List ListenerRef
  backRef : Option Nat
  media : MediaState
  warnings : Nat
deriving Repr, DecidableEq

/-- `MediaController.dispose` (part_000 lines 179-184) as written in the
source: it calls `scope.removeEventListener("keydown", this.onMediaKeydown)`
— the media handler, not the scope handler — then removes the media
handler from the target, then deletes the back-reference. -/
def dispose (cid : Nat) (w : World) : World :=
  { w with
    scopeListeners := removeListener ⟨cid, ListenerKind.mediaKd⟩ w.scopeListeners
    targetListeners := removeListener ⟨cid, ListenerKind.mediaKd⟩ w.targetListeners
    backRef := none }

/-- The listener-bookkeeping steps of the constructor (part_000 lines
74-84), after the target has been resolved: add `onScopeKeydown` to the
scope and `onMediaKeydown` to the target; if the scope already holds a
back-reference, warn and dispose that controller; then claim the
back-reference. -/
def construct (cid : Nat) (w : World) : World :=
  let w1 := { w with
    scopeListeners := addListener ⟨cid, ListenerKind.scopeKd⟩ w.scopeListeners }
  let w2 := { w1 with
    targetListeners := addListener ⟨cid, ListenerKind.mediaKd⟩ w1.targetListeners }
  let w3 := match w2.backRef with
    | some old => dispose old { w2 with warnings := w2.warnings + 1 }
    | none => w2
  { w3 with backRef := some cid }

/-- The constructor's selector branch (part_000 lines 65-70): `q sel`
models whether `document.querySelector(sel)` finds an element.  On
failure the constructor throws before any other statement runs, so the
world is returned unchanged together with the error message; on success
the bookkeeping steps run. -/
def constructWithSelector (q : String → Bool) (sel : String) (cid : Nat)
    (w : World) : World × Option String :=
  if q sel then (construct cid w, none)
  else (w, some ("Cannot find element with selector: " ++ sel))

/-- Run one listener on the event. -/
def runHandler (opts : MediaControllerOptions) (r : ListenerRef) (e : Event)
    (m : MediaState) (f : EventFlags) : MediaState × EventFlags :=
  match r.kind with
  | ListenerKind.scopeKd => onScopeKeydown opts e m f
  | ListenerKind.mediaKd => onMediaKeydown opts e m f

/-- DOM dispatch on one node: run listeners in registration order,
skipping the rest once `stopImmediatePropagation` has been called. -/
def runListeners (opts : MediaControllerOptions) (refs : List ListenerRef)
    (e : Event) (m : MediaState) (f : EventFlags) : MediaState × EventFlags :=
  match refs with
  | [] => (m, f)
  | r :: rest =>
    if f.immediatePropagationStopped then (m, f)
    else
      let mf := runHandler opts r e m f
      runListeners opts rest e mf.1 mf.2

/-- Deliver a keydown event to the scope node. -/
def dispatchScopeKeydown (opts : MediaControllerOptions) (e : Event)
    (w : World) (f : EventFlags) : World × EventFlags :=
  let mf := runListeners opts w.scopeListeners e w.media f
  ({ w with media := mf.1 }, mf.2)

/-- Deliver a keydown event to the target node. -/
def dispatchTargetKeydown (opts : MediaControllerOptions) (e : Event)
    (w : World) (f : EventFlags) : World × EventFlags :=
  let mf := runListeners opts w.targetListeners e w.media f
  ({ w with media := mf.1 }, mf.2)

/-- Concrete event: ctrl+e, the default focus shortcut. -/
def ctrlE : Event :=
  { isKeyboardEvent := true, key := "e", ctrlKey := true, metaKey := false
    shiftKey := false }

/-- Concrete event: shift+ctrl with an arbitrary key. -/
def eShiftCtrl : Event :=
  { isKeyboardEvent := true, key := "x", ctrlKey := true, metaKey := false
    shiftKey := true }

/-- Concrete event: plain ArrowLeft. -/
def arrowLeftE : Event :=
  { isKeyboardEvent := true, key := "ArrowLeft", ctrlKey := false
    metaKey := false, shiftKey := false }

/-- Concrete event: a non-keyboard event (fields beyond the tag unused). -/
def nonKeyboardE : Event :=
  { isKeyboardEvent := false, key := "", ctrlKey := false, metaKey := false
    shiftKey := false }

/-- Concrete media state: unfocused, paused, mid-playback. -/
def m0 : MediaState :=
  { currentTime := 100, volume := 0.5, paused := true, focused := false }

/-- Concrete media state: target holds document focus. -/
def mFoc : MediaState :=
  { currentTime := 100, volume := 0.5, paused := true, focused := true }

/-- Concrete world: no listeners, no back-reference. -/
def w0 : World :=
  { scopeListeners := [], targetListeners := [], backRef := none
    media := m0, warnings := 0 }

theorem removeListener_idem (r : ListenerRef) (l : List ListenerRef) :
    removeListener r (removeListener r l) = removeListener r l := by
  induction l with
  | nil => rfl
  | cons x xs ih =>
    by_cases hx : x = r <;> simp [removeListener, hx] at ih ⊢

/-- C9: `dispose` is idempotent — a second call removes nothing further
and re-clears the already-absent back-reference, leaving the world
exactly as the first call left it, and (being a total function) raises
no error. -/
theorem dispose_idempotent (cid : Nat) (w : World) :
    dispose cid (dispose cid w) = dispose cid w := by
  simp [dispose, removeListener_idem]

/-- C8: the default configuration is exactly: focus key "e" with
ctrl-or-meta required and shift not; progress table (seconds)
none=10, shift=1, ctrl=30, shift+ctrl=60; volume table (fraction)
none=0.1, shift=0.01, ctrl=0.25, shift+ctrl=0.5. -/
theorem defaults_exact :
    getDefaults.focusKey.key = "e"
    ∧ getDefaults.focusKey.mask.ctrlKey = true
    ∧ getDefaults.focusKey.mask.shiftKey = false
    ∧ getDefaults.progress.onNone = 10
    ∧ getDefaults.progress.onShift = 1
    ∧ getDefaults.progress.onCtrl = 30
    ∧ getDefaults.progress.onShiftCtrl = 60
    ∧ getDefaults.volume.onNone = 0.1
    ∧ getDefaults.volume.onShift = 0.01
    ∧ getDefaults.volume.onCtrl = 0.25
    ∧ getDefaults.volume.onShiftCtrl = 0.5 := by
  refine ⟨rfl, rfl, rfl, ?_, ?_, ?_, ?_, ?_, ?_, ?_, ?_⟩ <;> norm_num [getDefaults]

/-- C3: magnitude resolution is a strict 4-way lookup in tie-break order
shift-AND-ctrl, shift-only, ctrl-only, none (ctrl meaning
ctrlKey-or-metaKey): for each modifier combination both tables return
exactly their configured entry; in particular shift+ctrl yields the
shift+ctrl entry, never the shift-only or ctrl-only one. -/
theorem magnitude_resolution (opts : MediaControllerOptions) (e : Event) :
    (e.shiftKey = true → (e.ctrlKey || e.metaKey) = true →
      getTimeDelta opts e = opts.progress.onShiftCtrl
      ∧ getVolumeDelta opts e = opts.volume.onShiftCtrl)
    ∧ (e.shiftKey = true → (e.ctrlKey || e.metaKey) = false →
      getTimeDelta opts e = opts.progress.onShift
      ∧ getVolumeDelta opts e = opts.volume.onShift)
    ∧ (e.shiftKey = false → (e.ctrlKey || e.metaKey) = true →
      getTimeDelta opts e = opts.progress.onCtrl
      ∧ getVolumeDelta opts e = opts.volume.onCtrl)
    ∧ (e.shiftKey = false → (e.ctrlKey || e.metaKey) = false →
      getTimeDelta opts e = opts.progress.onNone
      ∧ getVolumeDelta opts e = opts.volume.onNone) := by
  refine ⟨?_, ?_, ?_, ?_⟩ <;> intro hs hc <;>
    constructor <;> simp [getTimeDelta, getVolumeDelta, hs, hc]

/-- Witness for C3 at the default options and a concrete shift+ctrl
event: both deltas are the shift+ctrl entries. -/
theorem magnitude_resolution_witness :
    getTimeDelta getDefaults eShiftCtrl = getDefaults.progress.onShiftCtrl
    ∧ getVolumeDelta getDefaults eShiftCtrl = getDefaults.volume.onShiftCtrl :=
  (magnitude_resolution getDefaults eShiftCtrl).1 rfl rfl

/-- C4: the focus shortcut matches iff the key string, the combined
ctrl-or-meta flag and the shift flag all equal the configuration; on a
match the target is focused and the event fully suppressed (default
prevented, propagation and immediate propagation stopped); on any
mismatch the media state and the flags are left untouched. -/
theorem focus_shortcut_exact (opts : MediaControllerOptions) (e : Event)
    (m : MediaState) (f : EventFlags) (hk : e.isKeyboardEvent = true) :
    ((e.key = opts.focusKey.key
        ∧ (e.ctrlKey || e.metaKey) = opts.focusKey.mask.ctrlKey
        ∧ e.shiftKey = opts.focusKey.mask.shiftKey) →
      onScopeKeydown opts e m f
        = ({ m with focused := true },
           { defaultPrevented := true, propagationStopped := true
             immediatePropagationStopped := true }))
    ∧ (¬(e.key = opts.focusKey.key
        ∧ (e.ctrlKey || e.metaKey) = opts.focusKey.mask.ctrlKey
        ∧ e.shiftKey = opts.focusKey.mask.shiftKey) →
      onScopeKeydown opts e m f = (m, f)) := by
  constructor
  · rintro ⟨h1, h2, h3⟩
    simp [onScopeKeydown, hk, h1, h2, h3, focus, preventDefault,
      stopImmediatePropagation, stopPropagation]
  · intro hne
    rw [onScopeKeydown]
    simp only [hk, Bool.not_true, Bool.false_eq_true, if_false]
    rw [if_neg]
    intro hcond
    exact hne (by simpa [Bool.and_eq_true, beq_iff_eq, and_assoc] using hcond)

/-- Witness for C4: ctrl+e under the default configuration focuses the
target and sets all three suppression flags. -/
theorem focus_shortcut_exact_witness :
    onScopeKeydown getDefaults ctrlE m0 EventFlags.fresh
      = ({ m0 with focused := true },
         { defaultPrevented := true, propagationStopped := true
           immediatePropagationStopped := true }) :=
  (focus_shortcut_exact getDefaults ctrlE m0 EventFlags.fresh rfl).1
    ⟨rfl, rfl, rfl⟩

/-- C6: with the target focused, ArrowLeft/ArrowRight move `currentTime`
down/up by the resolved progress magnitude, ArrowUp/ArrowDown move
`volume` up/down by the resolved volume magnitude, Space toggles
play/pause (play when paused, else pause), each with full suppression;
any other key leaves both media state and flags untouched. -/
theorem media_keydown_effects (opts : MediaControllerOptions) (e : Event)
    (m : MediaState) (f : EventFlags) (hk : e.isKeyboardEvent = true)
    (hf : m.focused = true) :
    (e.key = "ArrowLeft" →
      onMediaKeydown opts e m f
        = ({ m with currentTime := m.currentTime - getTimeDelta opts e },
           { defaultPrevented := true, propagationStopped := true
             immediatePropagationStopped := true }))
    ∧ (e.key = "ArrowRight" →
      onMediaKeydown opts e m f
        = ({ m with currentTime := m.currentTime + getTimeDelta opts e },
           { defaultPrevented := true, propagationStopped := true
             immediatePropagationStopped := true }))
    ∧ (e.key = "ArrowUp" →
      onMediaKeydown opts e m f
        = ({ m with volume := m.volume + getVolumeDelta opts e },
           { defaultPrevented := true, propagationStopped := true
             immediatePropagationStopped := true }))
    ∧ (e.key = "ArrowDown" →
      onMediaKeydown opts e m f
        = ({ m with volume := m.volume - getVolumeDelta opts e },
           { defaultPrevented := true, propagationStopped := true
             immediatePropagationStopped := true }))
    ∧ (e.key = " " →
      onMediaKeydown opts e m f
        = ({ m with paused := !m.paused },
           { defaultPrevented := true, propagationStopped := true
             immediatePropagationStopped := true }))
    ∧ (e.key ≠ "ArrowLeft" → e.key ≠ "ArrowRight" → e.key ≠ "ArrowUp" →
       e.key ≠ "ArrowDown" → e.key ≠ " " →
      onMediaKeydown opts e m f = (m, f)) := by
  refine ⟨?_, ?_, ?_, ?_, ?_, ?_⟩
  · intro h
    simp [onMediaKeydown, hk, hf, h, preventDefault,
      stopImmediatePropagation, stopPropagation]
  · intro h
    simp [onMediaKeydown, hk, hf, h, preventDefault,
      stopImmediatePropagation, stopPropagation]
  · intro h
    simp [onMediaKeydown, hk, hf, h, preventDefault,
      stopImmediatePropagation, stopPropagation]
  · intro h
    simp [onMediaKeydown, hk, hf, h, preventDefault,
      stopImmediatePropagation, stopPropagation]
  · intro h
    cases hp : m.paused <;>
      simp [onMediaKeydown, hk, hf, h, hp, play, pause, preventDefault,
        stopImmediatePropagation, stopPropagation]
  · intro h1 h2 h3 h4 h5
    simp [onMediaKeydown, hk, hf, beq_iff_eq, h1, h2, h3, h4, h5]

/-- Witness for C6: a plain ArrowLeft on a focused default-configured
target rewinds `currentTime` by the resolved magnitude and suppresses. -/
theorem media_keydown_effects_witness :
    onMediaKeydown getDefaults arrowLeftE mFoc EventFlags.fresh
      = ({ mFoc with
            currentTime := mFoc.currentTime - getTimeDelta getDefaults arrowLeftE },
         { defaultPrevented := true, propagationStopped := true
           immediatePropagationStopped := true }) :=
  (media_keydown_effects getDefaults arrowLeftE mFoc EventFlags.fresh
    rfl rfl).1 rfl

/-- C7: when the target does not hold document focus, the target-level
handler leaves the event completely untouched: no mutation of the media
state and no suppression, whatever the key and modifiers. -/
theorem unfocused_passthrough (opts : MediaControllerOptions) (e : Event)
    (m : MediaState) (f : EventFlags) (hf : m.focused = false) :
    onMediaKeydown opts e m f = (m, f) := by
  cases hk : e.isKeyboardEvent <;> simp [onMediaKeydown, hk, hf]

/-- Witness for C7: ArrowLeft on an unfocused target changes nothing. -/
theorem unfocused_passthrough_witness :
    onMediaKeydown getDefaults arrowLeftE m0 EventFlags.fresh
      = (m0, EventFlags.fresh) :=
  unfocused_passthrough getDefaults arrowLeftE m0 EventFlags.fresh rfl

/-- C10: an event that is not a keyboard event makes both handlers
return immediately: no focus move, no media mutation, no suppression. -/
theorem non_keyboard_passthrough (opts : MediaControllerOptions)
    (e : Event) (m : MediaState) (f : EventFlags)
    (hk : e.isKeyboardEvent = false) :
    onScopeKeydown opts e m f = (m, f)
    ∧ onMediaKeydown opts e m f = (m, f) := by
  constructor <;> simp [onScopeKeydown, onMediaKeydown, hk]

/-- Witness for C10 at a concrete non-keyboard event. -/
theorem non_keyboard_passthrough_witness :
    onScopeKeydown getDefaults nonKeyboardE m0 EventFlags.fresh
      = (m0, EventFlags.fresh)
    ∧ onMediaKeydown getDefaults nonKeyboardE m0 EventFlags.fresh
      = (m0, EventFlags.fresh) :=
  non_keyboard_passthrough getDefaults nonKeyboardE m0 EventFlags.fresh rfl

/-- C5: constructing against a selector matching zero elements fails
with the error message naming the selector, and the world is returned
unchanged — no listener attached to scope or target and no
back-reference set. -/
theorem selector_not_found (q : String → Bool) (sel : String) (cid : Nat)
    (w : World) (hq : q sel = false) :
    constructWithSelector q sel cid w
      = (w, some ("Cannot find element with selector: " ++ sel)) := by
  simp [constructWithSelector, hq]

/-- Witness for C5: a querySelector that finds nothing makes
construction fail with the named selector and leave the empty world
untouched. -/
theorem selector_not_found_witness :
    constructWithSelector (fun _ => false) "#video" 0 w0
      = (w0, some ("Cannot find element with selector: " ++ "#video")) :=
  selector_not_found (fun _ => false) "#video" 0 w0 rfl

/-- Counter-evidence for C1 (code bug): `dispose` as written removes
`onMediaKeydown` from the scope rather than `onScopeKeydown`, so after
constructing controller 0 and disposing it, the scope still holds the
scope-level focus-shortcut listener even though the back-reference is
gone — and a subsequent ctrl+e keydown delivered to the scope still
focuses the target and suppresses the event. -/
theorem dispose_leaves_scope_listener_live :
    (dispose 0 (construct 0 w0)).scopeListeners
        = [⟨0, ListenerKind.scopeKd⟩]
    ∧ (dispose 0 (construct 0 w0)).backRef = none
    ∧ (dispose 0 (construct 0 w0)).targetListeners = []
    ∧ (dispatchScopeKeydown getDefaults ctrlE (dispose 0 (construct 0 w0))
        EventFlags.fresh).1.media.focused = true
    ∧ (dispatchScopeKeydown getDefaults ctrlE (dispose 0 (construct 0 w0))
        EventFlags.fresh).2
        = { defaultPrevented := true, propagationStopped := true
            immediatePropagationStopped := true } := by
  refine ⟨rfl, rfl, rfl, rfl, rfl⟩

/-- Counter-evidence for C2 (code bug): constructing controller 1 on a
scope already holding controller 0 does warn and dispose controller 0,
but that disposal removes the wrong handler from the scope, so
controller 0's scope-level listener stays attached (first in dispatch
order) — the prior controller is not rendered inert and the scope
effectively retains listeners of two controllers. -/
theorem second_construct_prior_listener_live :
    (construct 1 (construct 0 w0)).scopeListeners
        = [⟨0, ListenerKind.scopeKd⟩, ⟨1, ListenerKind.scopeKd⟩]
    ∧ (construct 1 (construct 0 w0)).targetListeners
        = [⟨1, ListenerKind.mediaKd⟩]
    ∧ (construct 1 (construct 0 w0)).backRef = some 1
    ∧ (construct 1 (construct 0 w0)).warnings = 1 := by
  refine ⟨rfl, rfl, rfl, rfl⟩

end MediaCtrl
